import Mathlib

/-!
# Verification of the fvtt-terrain-mapper Layered Terrain Raster Engine

Shallow embedding of the raster-engine logic of `src/scripts/TerrainLayer.js`
(class `TerrainLayer` and class `TerrainLevel`).  JavaScript numbers that hold
integers are modelled as `Int` (or `Nat` where the source guarantees a
non-negative value); `Uint8Array` dirty flags are modelled as `Bool` pairs with
JS typed-array out-of-range write semantics made explicit; JS `Map` objects are
modelled as association lists or functions to `Option`.

External collaborators (the PIXI rasterizer, `TerrainPixelCache.js`,
`ShapeQueue.js`, `TerrainMap.js`, `WallTracer.js`) are either taken as
universally-quantified parameters or modelled from the specification, as
flagged in the individual doc comments.
-/

namespace TerrainMapper

/-! ## Dirty bits for the two channel buffers

`TerrainLayer.#pixelCacheDirty` is a `Uint8Array` of length
`NUM_TEXTURES = Math.ceil(6 / 3) = 2`.  We model it as a pair of `Bool`.
-/

/-- The two dirty flags, one per channel buffer (texture). -/
abbrev DirtyBits := Bool × Bool

/-- A write `arr[i] = v` on a length-2 `Uint8Array` with a (possibly negative)
integer index: JS typed arrays silently ignore out-of-range numeric indices. -/
def uint8ArraySet2 (d : DirtyBits) (i : Int) (v : Bool) : DirtyBits :=
  if i = 0 then (v, d.2)
  else if i = 1 then (d.1, v)
  else d

/-- JS bitwise complement `~x` on a 32-bit integer (here indices stay tiny,
so no wraparound is involved). -/
def jsBitNot (x : Int) : Int := -(x + 1)

/-- `TerrainLayer._clearPixelCacheArray(layer = -1)` (TerrainLayer.js:819-825):

```js
if ( ~layer ) this.#pixelCacheDirty.fill(1);
else {
  const idx = Math.floor(layer / 3);
  this.#pixelCacheDirty[idx] = 1;
}
```

`~layer` is truthy exactly when `layer` is not `-1`; `Math.floor(layer / 3)`
on integers is floor division (`Int.fdiv`). -/
def clearPixelCacheArray (layer : Int) (d : DirtyBits) : DirtyBits :=
  if jsBitNot layer ≠ 0 then (true, true)
  else uint8ArraySet2 d (Int.fdiv layer 3) true

/-! ## The pixel cache state and its lazy rebuild (C2)

`TerrainPixelCache.js` is not part of the sources; its two relevant methods
(`updateFromTexture`, `updateFromTerrainLayerCaches`) are taken as
universally-quantified function parameters `upd` and `merge`. -/

/-- The mutable state read and written by the `pixelCache` getter
(`#pixelCacheArray`, `#pixelCache`, `#pixelCacheDirty`, `_terrainTextures`);
the source addresses the two slots of each array by the literal indices
`0` and `1`, which we mirror with separate fields. -/
structure CacheState (Tex LCache MCache : Type) where
  texture0 : Tex
  texture1 : Tex
  cache0 : LCache
  cache1 : LCache
  merged : MCache
  dirty0 : Bool
  dirty1 : Bool

/-- `TerrainLayer.#refreshPixelCacheArray(0)` (TerrainLayer.js:846-850):
re-derive the cache of buffer 0 from texture 0, then clear its dirty bit. -/
def refreshPixelCacheArray0 {Tex LCache MCache : Type} (upd : Tex → LCache)
    (s : CacheState Tex LCache MCache) : CacheState Tex LCache MCache :=
  { s with cache0 := upd s.texture0, dirty0 := false }

/-- `TerrainLayer.#refreshPixelCacheArray(1)`: re-derive the cache of buffer 1 from
texture 1, then clear its dirty bit. -/
def refreshPixelCacheArray1 {Tex LCache MCache : Type} (upd : Tex → LCache)
    (s : CacheState Tex LCache MCache) : CacheState Tex LCache MCache :=
  { s with cache1 := upd s.texture1, dirty1 := false }

/-- `TerrainLayer.#refreshPixelCache()` (TerrainLayer.js:832-840):

```js
if ( this.#pixelCacheDirty[0] ) this.#refreshPixelCacheArray(0);
if ( this.#pixelCacheDirty[1] ) this.#refreshPixelCacheArray(1);
const cache0 = this.#pixelCacheArray[0];
const cache1 = this.#pixelCacheArray[1];
this.#pixelCache.updateFromTerrainLayerCaches(cache0, cache1);
``` -/
def refreshPixelCache {Tex LCache MCache : Type} (upd : Tex → LCache)
    (merge : LCache → LCache → MCache) (s : CacheState Tex LCache MCache) :
    CacheState Tex LCache MCache :=
  let s1 := if s.dirty0 then refreshPixelCacheArray0 upd s else s
  let s2 := if s1.dirty1 then refreshPixelCacheArray1 upd s1 else s1
  { s2 with merged := merge s2.cache0 s2.cache1 }

/-- The getter `pixelCacheDirty` (TerrainLayer.js:800):
`this.#pixelCacheDirty[0] || this.#pixelCacheDirty[1]`. -/
def pixelCacheDirtyGet {Tex LCache MCache : Type}
    (s : CacheState Tex LCache MCache) : Bool :=
  s.dirty0 || s.dirty1

/-- The getter `pixelCache` (TerrainLayer.js:803-806): refresh if dirty, then
return the merged cache.  Returns the value read together with the
post-read state. -/
def pixelCacheGet {Tex LCache MCache : Type} (upd : Tex → LCache)
    (merge : LCache → LCache → MCache) (s : CacheState Tex LCache MCache) :
    MCache × CacheState Tex LCache MCache :=
  if pixelCacheDirtyGet s then
    let s2 := refreshPixelCache upd merge s
    (s2.merged, s2)
  else (s.merged, s)

/-! ## Channel encoding of a drawn shape (C3) -/

/-- The RGB byte values of the fill color built by
`TerrainLayer._drawTerrainShape` (TerrainLayer.js:1249-1255):

```js
const channel = layer % 3;
const colorArr = new Array(3).fill(0);
colorArr[channel] = terrain.pixelValue / 255;
const color = new PIXI.Color(colorArr);
```

`PIXI.Color` turns the normalized component `pixelValue / 255` back into the
byte `pixelValue`; we record the three 8-bit channel values directly. -/
def drawTerrainShapeColor (layer pixelValue : Nat) : List Nat :=
  let channel := layer % 3
  (List.range 3).map fun c => if c = channel then pixelValue else 0

/-- The render texture that `TerrainLayer.renderTerrain`
(TerrainLayer.js:1031-1047) renders layer `i` into:
`const texIdx = Math.floor(i / 3); const renderTexture = this._terrainTextures[texIdx];` -/
def renderTextureIndex (layer : Nat) : Nat := layer / 3

/-- The color-mask channel assigned to graphics layer `i` in
`TerrainLayer.#firstInitialize` (TerrainLayer.js:454-457):
`const colorName = LAYER_COLORS[i % 3]` with `LAYER_COLORS = ["RED","GREEN","BLUE"]`. -/
def layerMaskChannel (layer : Nat) : Nat := layer % 3

end TerrainMapper

namespace TerrainMapper

/-! ## Theorems for C1, C2, C3 -/

/-- **C1** (code bug): the spec claims `_clearPixelCacheArray(L)` sets the dirty
bit only on the channel buffer owning layer `L` (buffer `floor(L/3)`), and that
the default `-1` marks every buffer dirty.  The source test `if ( ~layer )`
is inverted: calling it for layer 4 (buffer 1) sets the dirty bits of *both* buffers,
and calling it with the default `-1` writes to `Uint8Array` index
`Math.floor(-1/3) = -1`, which is silently ignored, so *no* dirty bit is set. -/
theorem c1_clearPixelCacheArray_marks_wrong_buffers :
    clearPixelCacheArray 4 (false, false) = (true, true) ∧
    clearPixelCacheArray (-1) (false, false) = (false, false) := by
  constructor <;> rfl

/-- **C2**: every read through the `pixelCache` getter first rebuilds each
buffer whose dirty bit is set from the texture of that buffer (leaving the
cached contents of the clean buffer untouched), clears those dirty bits, and recomputes
the merged cache before returning it; after any read no dirty bit remains set
(no stale reads). -/
theorem c2_pixelCache_read_rebuilds_dirty_buffers {Tex LCache MCache : Type}
    (upd : Tex → LCache) (merge : LCache → LCache → MCache)
    (s : CacheState Tex LCache MCache) :
    ((pixelCacheGet upd merge s).2.dirty0 = false ∧
      (pixelCacheGet upd merge s).2.dirty1 = false) ∧
    (pixelCacheDirtyGet s = true →
      (pixelCacheGet upd merge s).2.cache0
          = (if s.dirty0 then upd s.texture0 else s.cache0) ∧
      (pixelCacheGet upd merge s).2.cache1
          = (if s.dirty1 then upd s.texture1 else s.cache1) ∧
      (pixelCacheGet upd merge s).2.merged
          = merge (if s.dirty0 then upd s.texture0 else s.cache0)
              (if s.dirty1 then upd s.texture1 else s.cache1) ∧
      (pixelCacheGet upd merge s).1 = (pixelCacheGet upd merge s).2.merged) := by
  cases h0 : s.dirty0 <;> cases h1 : s.dirty1 <;>
    simp [pixelCacheGet, pixelCacheDirtyGet, refreshPixelCache,
      refreshPixelCacheArray0, refreshPixelCacheArray1, h0, h1]

/-- Witness for C2 at a concrete dirty state. -/
theorem c2_pixelCache_read_rebuilds_dirty_buffers_witness :
    pixelCacheDirtyGet
        (⟨10, 20, 3, 4, 7, true, false⟩ : CacheState Nat Nat Nat) = true ∧
    (pixelCacheGet (fun t => t + 1) (fun a b => a * 100 + b)
        (⟨10, 20, 3, 4, 7, true, false⟩ : CacheState Nat Nat Nat)).2.cache0
      = (if true then (10 : Nat) + 1 else 3) :=
  ⟨rfl, ((c2_pixelCache_read_rebuilds_dirty_buffers (fun t => t + 1)
    (fun a b => a * 100 + b) ⟨10, 20, 3, 4, 7, true, false⟩).2 rfl).1⟩

/-- **C3**: a shape on layer `L ∈ [0,5]` with pixel value `v ∈ [0,31]` is
encoded into color channel `L mod 3` — an RGB channel (index below 3, no alpha
slot exists in the 3-entry color array) — with channel byte value `v`, the
other channels zero; it is rendered into texture `floor(L/3)` (0 for layers
0-2, 1 for layers 3-5), and `v` occupies the low 5 bits of its 8-bit channel. -/
theorem c3_shape_channel_encoding (L v : Nat) (hL : L < 6) (hv : v < 32) :
    (drawTerrainShapeColor L v).length = 3 ∧
    L % 3 < 3 ∧
    (drawTerrainShapeColor L v).getD (L % 3) 0 = v ∧
    (∀ c < 3, c ≠ L % 3 → (drawTerrainShapeColor L v).getD c 0 = 0) ∧
    layerMaskChannel L = L % 3 ∧
    renderTextureIndex L = L / 3 ∧
    (L < 3 → renderTextureIndex L = 0) ∧
    (3 ≤ L → renderTextureIndex L = 1) ∧
    v % 32 = v ∧ v < 256 := by
  refine ⟨?_, ?_, ?_, ?_, rfl, rfl, ?_, ?_, Nat.mod_eq_of_lt hv, by omega⟩
  · simp [drawTerrainShapeColor]
  · omega
  · interval_cases L <;> simp [drawTerrainShapeColor]
  · intro c hc hne
    interval_cases L <;> interval_cases c <;>
      simp_all [drawTerrainShapeColor]
  · intro h
    interval_cases L <;> rfl
  · intro h
    unfold renderTextureIndex
    omega

/-- Witness for C3 at layer 4, value 17 (the channel-isolation example of the spec). -/
theorem c3_shape_channel_encoding_witness :
    (4 : Nat) < 6 ∧ (17 : Nat) < 32 ∧
    (drawTerrainShapeColor 4 17).getD (4 % 3) 0 = 17 :=
  ⟨by decide, by decide, (c3_shape_channel_encoding 4 17 (by decide) (by decide)).2.2.1⟩

end TerrainMapper

namespace TerrainMapper

/-! ## Shape queues: entries, compaction and pixel-value queries (C4, C7) -/

/-- An entry of a per-layer shape queue: the fields of the enqueued shape the
raster engine reads (`shape.layer`, `shape.pixelValue`, `shape.origin.key`).
The attached PIXI graphics/text handles are not visible to the logic modelled here. -/
structure QEntry where
  layer : Nat
  pixelValue : Nat
  originKey : Nat
  deriving DecidableEq, Repr

/-- `TerrainLayer.NUM_UNDO` (TerrainLayer.js:75). -/
def NUM_UNDO : Nat := 20

/-- Modelled from the spec: the compaction scan of `ShapeQueue.clean(retain)` —
`ShapeQueue.js` is not under src/.  Per §4.3, `clean` "scans the older prefix
and removes entries whose shape is fully superseded (… entirely covered by a
later same-layer entry)" and returns the removed entries.  The geometric
coverage test is abstracted as the predicate `p e later`, asked of each older
entry `e` with the list `later` of all entries enqueued after it.  Returns
`(kept, removed)` for the scanned older portion; the `recent` suffix is passed
in so the coverage test can see it but is never itself scanned. -/
def cleanOlder {α : Type} (p : α → List α → Bool) (recent : List α) :
    List α → List α × List α
  | [] => ([], [])
  | e :: rest =>
    let r := cleanOlder p recent rest
    if p e (rest ++ recent) then (r.1, e :: r.2) else (e :: r.1, r.2)

/-- Modelled from the spec: `ShapeQueue.clean(retain)` (`ShapeQueue.js` is not
under src/).  The most recent `retain` entries are kept untouched; the older
prefix is compacted by `cleanOlder`.  Returns the new queue contents together
with the removed entries.  Queues are oldest-first lists (`enqueue` appends). -/
def shapeQueueClean {α : Type} (p : α → List α → Bool) (retain : Nat)
    (q : List α) : List α × List α :=
  let older := q.take (q.length - retain)
  let recent := q.drop (q.length - retain)
  let r := cleanOlder p recent older
  (r.1 ++ recent, r.2)

/-- `TerrainLayer.#cleanShapeQueue` (TerrainLayer.js:882-892) for the
queue of one layer: queues shorter than `NUM_UNDO = 20` are returned untouched
(`if ( queue.length < skip ) return;`); otherwise `queue.clean(skip)` runs
and the graphics of the removed entries are released (not modelled). -/
def cleanShapeQueue {α : Type} (p : α → List α → Bool) (q : List α) :
    List α × List α :=
  if q.length < NUM_UNDO then (q, [])
  else shapeQueueClean p NUM_UNDO q

/-- `TerrainLayer.isPixelValueInScene(pixelValue)` (TerrainLayer.js:859-867):

```js
if ( !pixelValue || pixelValue < 0 || pixelValue > 31 ) return false;
const ln = this._shapeQueueArray.length;
for ( let i = 0; i < ln; i += 1 ) {
  if ( this._shapeQueueArray[i].elements.some(e => e.shape.pixelValue === pixelValue) ) return true;
}
return false;
```

The argument is an `Int` so the `pixelValue < 0` guard is meaningful. -/
def isPixelValueInScene (queues : List (List QEntry)) (v : Int) : Bool :=
  if v = 0 || decide (v < 0) || decide (v > 31) then false
  else queues.any fun q => q.any fun e => (e.pixelValue : Int) = v

/-! ## Theorems for C4 and C7 -/

/-- `cleanOlder` splits its input into the kept and removed sublists. -/
theorem cleanOlder_kept_sublist {α : Type} (p : α → List α → Bool)
    (recent : List α) (l : List α) :
    (cleanOlder p recent l).1.Sublist l ∧ (cleanOlder p recent l).2.Sublist l := by
  induction l with
  | nil => simp [cleanOlder]
  | cons e rest ih =>
    cases hb : p e (rest ++ recent) with
    | true =>
      constructor
      · simpa [cleanOlder, hb] using ih.1.cons e
      · simpa [cleanOlder, hb] using ih.2.cons₂ e
    | false =>
      constructor
      · simpa [cleanOlder, hb] using ih.1.cons₂ e
      · simpa [cleanOlder, hb] using ih.2.cons e

/-- Every entry removed by `cleanOlder` passed the superseded test against the
entries that followed it. -/
theorem cleanOlder_removed_superseded {α : Type} (p : α → List α → Bool)
    (recent : List α) (l : List α) :
    ∀ e ∈ (cleanOlder p recent l).2, ∃ later : List α,
      (later ++ recent).Sublist (l ++ recent) ∧ p e (later ++ recent) = true := by
  induction l with
  | nil => simp [cleanOlder]
  | cons a rest ih =>
    intro e he
    have hstep : List.Sublist (rest ++ recent) ((a :: rest) ++ recent) :=
      List.Sublist.append (List.sublist_cons_self a rest) (List.Sublist.refl recent)
    cases hb : p a (rest ++ recent) with
    | true =>
      simp only [cleanOlder, hb, if_true] at he
      rcases List.mem_cons.mp he with heq | hmem
      · exact ⟨rest, hstep, by rw [heq]; exact hb⟩
      · obtain ⟨later, hsub, hp⟩ := ih e hmem
        exact ⟨later, hsub.trans hstep, hp⟩
    | false =>
      simp only [cleanOlder, hb, Bool.false_eq_true, if_false] at he
      obtain ⟨later, hsub, hp⟩ := ih e he
      exact ⟨later, hsub.trans hstep, hp⟩

/-- Unfolding equation for the kept part of `shapeQueueClean`. -/
theorem shapeQueueClean_fst {α : Type} (p : α → List α → Bool) (retain : Nat)
    (q : List α) :
    (shapeQueueClean p retain q).1
      = (cleanOlder p (q.drop (q.length - retain)) (q.take (q.length - retain))).1
          ++ q.drop (q.length - retain) := rfl

/-- Unfolding equation for the removed part of `shapeQueueClean`. -/
theorem shapeQueueClean_snd {α : Type} (p : α → List α → Bool) (retain : Nat)
    (q : List α) :
    (shapeQueueClean p retain q).2
      = (cleanOlder p (q.drop (q.length - retain)) (q.take (q.length - retain))).2 := rfl

/-- **C4**: for every queue and every coverage predicate, compaction through
`#cleanShapeQueue` (a) leaves a queue of fewer than 20 entries completely
untouched and removes nothing; (b) always keeps the most recent
`min(length, 20)` entries as a suffix of the result; and (c) removes only
entries from the older prefix, each of which was judged fully superseded by
entries enqueued after it. -/
theorem c4_clean_retains_recent_entries {α : Type} (p : α → List α → Bool)
    (q : List α) :
    (q.length < 20 → cleanShapeQueue p q = (q, [])) ∧
    List.IsSuffix (q.drop (q.length - 20)) (cleanShapeQueue p q).1 ∧
    (cleanShapeQueue p q).2.Sublist (q.take (q.length - 20)) ∧
    (∀ e ∈ (cleanShapeQueue p q).2, ∃ later : List α,
      later.Sublist q ∧ p e later = true) := by
  by_cases hlen : q.length < 20
  · have hz : q.length - 20 = 0 := by omega
    have heq : cleanShapeQueue p q = (q, []) := by
      simp [cleanShapeQueue, NUM_UNDO, hlen]
    refine ⟨fun _ => heq, ?_, ?_, ?_⟩
    · rw [heq, hz, List.drop_zero]
    · rw [heq]
      exact List.nil_sublist _
    · rw [heq]
      intro e he
      exact absurd he (List.not_mem_nil e)
  · have hq : cleanShapeQueue p q = shapeQueueClean p NUM_UNDO q := by
      simp [cleanShapeQueue, NUM_UNDO, hlen]
    refine ⟨fun h => absurd h hlen, ?_, ?_, ?_⟩
    · rw [hq, shapeQueueClean_fst, NUM_UNDO]
      exact ⟨(cleanOlder p (q.drop (q.length - 20))
        (q.take (q.length - 20))).1, rfl⟩
    · rw [hq, shapeQueueClean_snd, NUM_UNDO]
      exact (cleanOlder_kept_sublist p (q.drop (q.length - 20))
        (q.take (q.length - 20))).2
    · rw [hq, shapeQueueClean_snd, NUM_UNDO]
      intro e he
      obtain ⟨later, hsub, hp⟩ := cleanOlder_removed_superseded p
        (q.drop (q.length - 20)) (q.take (q.length - 20)) e he
      refine ⟨later ++ q.drop (q.length - 20), ?_, hp⟩
      have h2 := hsub
      rwa [List.take_append_drop] at h2


/-- Witness for C4: a 1-entry queue (fewer than 20 entries) is untouched even
under a coverage predicate that claims everything is superseded. -/
theorem c4_clean_retains_recent_entries_witness :
    ([⟨0, 7, 0⟩] : List QEntry).length < 20 ∧
    cleanShapeQueue (fun _ _ => true) ([⟨0, 7, 0⟩] : List QEntry)
      = ([⟨0, 7, 0⟩], []) :=
  ⟨by decide, (c4_clean_retains_recent_entries (fun _ _ => true)
    ([⟨0, 7, 0⟩] : List QEntry)).1 (by decide)⟩

/-- **C7 counterexample**: the claim states `isPixelValueInScene(v)` is true
whenever some queue holds a shape with pixel value `v`, *including* `v = 0`.
With a single queue holding one shape of pixel value 0, the guard
`if ( !pixelValue || pixelValue < 0 || pixelValue > 31 ) return false;`
returns `false` although such a shape is enqueued. -/
theorem c7_zero_value_counterexample :
    (([[⟨0, 0, 0⟩]] : List (List QEntry)).any
      fun q => q.any fun e => (e.pixelValue : Int) = 0) = true ∧
    isPixelValueInScene [[⟨0, 0, 0⟩]] 0 = false := by
  constructor <;> rfl

/-- **C7 amended**: `isPixelValueInScene(v)` returns true iff `v ∈ [1,31]` and
the shape queue of some layer contains an enqueued shape whose pixel value equals
`v`; for `v = 0` and values outside `[1,31]` it returns false regardless of
the queue contents. -/
theorem c7_isPixelValueInScene_amended (queues : List (List QEntry)) (v : Int) :
    isPixelValueInScene queues v = true ↔
      (1 ≤ v ∧ v ≤ 31 ∧ ∃ q ∈ queues, ∃ e ∈ q, (e.pixelValue : Int) = v) := by
  unfold isPixelValueInScene
  cases hguard : (decide (v = 0) || decide (v < 0) || decide (v > 31)) with
  | true =>
    have hrange : (v = 0 ∨ v < 0) ∨ 31 < v := by simpa using hguard
    simp only [hguard, if_true, Bool.false_eq_true, false_iff, not_and]
    intro h1 h2
    rcases hrange with (h | h) | h <;> omega
  | false =>
    have hrange : (¬v = 0 ∧ 0 ≤ v) ∧ v ≤ 31 := by simpa using hguard
    obtain ⟨⟨hne, hnlt⟩, hngt⟩ := hrange
    simp only [hguard, Bool.false_eq_true, if_false, List.any_eq_true,
      decide_eq_true_eq]
    constructor
    · rintro ⟨q, hq, e, he, hv⟩
      exact ⟨by omega, by omega, q, hq, e, he, hv⟩
    · rintro ⟨h1, h31, q, hq, e, he, hv⟩
      exact ⟨q, hq, e, he, hv⟩

/-! ## TerrainLevel anchors (C8) -/

/-- The three anchor modes `FLAGS.CHOICES` of a terrain. -/
inductive AnchorChoice
  | absolute
  | relativeToTerrain
  | relativeToLayer
  deriving DecidableEq, Repr

/-- The value a JS expression evaluates to where the caller expects a number:
either an actual number, a function object (a method named without being
called), or a thrown `ReferenceError`. -/
inductive JSVal
  | num (n : Int)
  | fnRef
  | refError
  deriving DecidableEq, Repr

/-- `TerrainLevel.getAnchorElevation(location)` (TerrainLayer.js:1624-1630):

```js
switch ( this.anchor ) {
  case FLAGS.CHOICES.ABSOLUTE: return 0;
  case FLAGS.CHOICES.RELATIVE_TO_TERRAIN: return location ? terrainElevation(location) : 0;
  case FLAGS.CHOICES.RELATIVE_TO_LAYER: return this._layerElevation;
}
```

`terrainElevation` is a free identifier, neither defined nor imported in the
module (the method is `this._terrainElevation`), so evaluating it with a
truthy `location` throws a `ReferenceError`; `this._layerElevation` names the
`_layerElevation` method without calling it, so that branch returns the
function object itself, never a number. -/
def getAnchorElevation (anchor : AnchorChoice) (hasLocation : Bool) : JSVal :=
  match anchor with
  | .absolute => .num 0
  | .relativeToTerrain => if hasLocation then .refError else .num 0
  | .relativeToLayer => .fnRef

/-- **C8** (code bug): the claim (and the own `@returns {number}` doc of the method) requires the relative-to-layer anchor to be the numeric configured
elevation of the layer of the entry.  The source returns `this._layerElevation`
without invoking it, so the "anchor" is the method object itself — not a
number — and the subsequent elevation-range comparison cannot behave as the
claim describes. -/
theorem c8_relative_to_layer_anchor_not_numeric :
    getAnchorElevation AnchorChoice.relativeToLayer true = JSVal.fnRef ∧
    (∀ n : Int,
      getAnchorElevation AnchorChoice.relativeToLayer true ≠ JSVal.num n) := by
  refine ⟨rfl, fun n h => ?_⟩
  simp [getAnchorElevation] at h

/-! ## The scene map and its key-0 binding (C9)

`TerrainMap.js` is not under src/; the scene map itself is modelled from the
spec as a standard JS `Map` from pixel value to terrain (`get`/`set`/`delete`
with the usual key-replacement semantics), represented as a function
`Nat → Option TerrainDoc`.  The operations proved about are the ones in
`TerrainLayer.js` itself. -/

/-- A terrain document as the scene-map logic sees it. -/
structure TerrainDoc where
  tid : Nat
  pixelValue : Nat
  isNull : Bool
  deriving DecidableEq, Repr

/-- The `new Terrain()` null ("no terrain") terrain that
`importFromJSON`/`loadSceneData` bind to pixel value 0. -/
def nullTerrain : TerrainDoc := ⟨0, 0, true⟩

/-- `Terrain.fromEffectId(id)` followed by `terrain.addToScene()` under
scene-map key `k`. -/
def terrainFromEffectId (id k : Nat) : TerrainDoc := ⟨id, k, false⟩

/-- Modelled from the spec: the scene map as a JS `Map` (`TerrainMap.js` is
not under src/). -/
def SceneMap : Type := Nat → Option TerrainDoc

/-- JS `Map.prototype.set`. -/
def tmSet (m : SceneMap) (k : Nat) (t : TerrainDoc) : SceneMap :=
  fun j => if j = k then some t else m j

/-- JS `Map.prototype.delete`. -/
def tmDelete (m : SceneMap) (k : Nat) : SceneMap :=
  fun j => if j = k then none else m j

/-- The scene map after `Map.prototype.clear`. -/
def emptySceneMap : SceneMap := fun _ => none

/-- The scene-map effect of `TerrainLayer.importFromJSON`
(TerrainLayer.js:576-594): clear the map, bind pixel value 0 to a fresh null
terrain, then add every non-zero key of the stored data
(`if ( !key ) continue;` skips any stored key-0 entry). -/
def importFromJSONSceneMap (data : List (Nat × Nat)) : SceneMap :=
  data.foldl
    (fun m kv =>
      if kv.1 = 0 then m else tmSet m kv.1 (terrainFromEffectId kv.2 kv.1))
    (tmSet emptySceneMap 0 nullTerrain)

/-- The scene-map effect of `TerrainLayer.loadSceneData`
(TerrainLayer.js:625-635): with stored file data, delegate to
`importFromJSON`; without it, bind key 0 to a null terrain unless key 0 is
already bound. -/
def loadSceneDataSceneMap (fileData : Option (List (Nat × Nat)))
    (m : SceneMap) : SceneMap :=
  match fileData with
  | some data => importFromJSONSceneMap data
  | none => if (m 0).isSome then m else tmSet m 0 nullTerrain

/-- The scene-map effect of `TerrainLayer.#removeTerrainFromSceneMap`
(TerrainLayer.js:696-709).  The guard is
`if ( !this._inSceneMap(terrain) || !terrain.pixelValue ) return;`; the
`_inSceneMap` lookup result is passed in as `inMap`. -/
def removeTerrainFromSceneMap (inMap : Bool) (t : TerrainDoc) (m : SceneMap) :
    SceneMap :=
  if ¬inMap ∨ t.pixelValue = 0 then m
  else tmDelete m t.pixelValue

/-- The scene-map effect of `TerrainLayer._removeTerrainFromScene`
(TerrainLayer.js:672-690): same guard, but the terrain at `t.pixelValue` is
replaced by a freshly created terrain rather than deleted. -/
def removeTerrainFromScene (inMap : Bool) (t newT : TerrainDoc) (m : SceneMap) :
    SceneMap :=
  if ¬inMap ∨ t.pixelValue = 0 then m
  else tmSet m t.pixelValue newT

/-- Helper: the import fold never rebinds key 0. -/
theorem importFold_preserves_key0 (data : List (Nat × Nat)) (m : SceneMap)
    (h : m 0 = some nullTerrain) :
    (data.foldl
      (fun m kv =>
        if kv.1 = 0 then m else tmSet m kv.1 (terrainFromEffectId kv.2 kv.1))
      m) 0 = some nullTerrain := by
  induction data generalizing m with
  | nil => exact h
  | cons kv rest ih =>
    simp only [List.foldl_cons]
    apply ih
    by_cases hk : kv.1 = 0
    · rw [if_pos hk]
      exact h
    · rw [if_neg hk]
      show (if (0 : Nat) = kv.1 then some (terrainFromEffectId kv.2 kv.1) else m 0)
        = some nullTerrain
      rw [if_neg fun h0 => hk h0.symm]
      exact h

/-- **C9**: the scene map always binds key 0 to the null terrain:
`importFromJSON` establishes it for any stored data (ignoring stored key-0
entries), `loadSceneData` establishes or preserves it, and neither removal
operation (replacement removal `_removeTerrainFromScene` nor outright removal
`#removeTerrainFromSceneMap`) ever deletes or rebinds key 0 — both are no-ops
for a terrain whose pixel value is 0. -/
theorem c9_key0_always_null_terrain (data : List (Nat × Nat))
    (fileData : Option (List (Nat × Nat))) (m : SceneMap) (inMap : Bool)
    (t newT : TerrainDoc) :
    importFromJSONSceneMap data 0 = some nullTerrain ∧
    ((m 0 = none ∨ m 0 = some nullTerrain) →
      loadSceneDataSceneMap fileData m 0 = some nullTerrain) ∧
    (t.pixelValue = 0 →
      removeTerrainFromSceneMap inMap t m = m ∧
      removeTerrainFromScene inMap t newT m = m) ∧
    removeTerrainFromSceneMap inMap t m 0 = m 0 ∧
    removeTerrainFromScene inMap t newT m 0 = m 0 := by
  have himport : ∀ d : List (Nat × Nat),
      importFromJSONSceneMap d 0 = some nullTerrain := by
    intro d
    apply importFold_preserves_key0
    rfl
  refine ⟨himport data, ?_, ?_, ?_, ?_⟩
  · intro hm
    match fileData with
    | some d => exact himport d
    | none =>
      show (if (m 0).isSome then m else tmSet m 0 nullTerrain) 0 = some nullTerrain
      rcases hm with hnone | hnull
      · rw [hnone] at *
        rw [if_neg (by simp [hnone])]
        rfl
      · rw [if_pos (by simp [hnull])]
        exact hnull
  · intro hpx
    constructor
    · unfold removeTerrainFromSceneMap
      rw [if_pos (Or.inr hpx)]
    · unfold removeTerrainFromScene
      rw [if_pos (Or.inr hpx)]
  · unfold removeTerrainFromSceneMap
    by_cases hguard : ¬inMap ∨ t.pixelValue = 0
    · rw [if_pos hguard]
    · rw [if_neg hguard]
      have hpx : t.pixelValue ≠ 0 := fun h => hguard (Or.inr h)
      show (if (0 : Nat) = t.pixelValue then none else m 0) = m 0
      rw [if_neg fun h0 => hpx h0.symm]
  · unfold removeTerrainFromScene
    by_cases hguard : ¬inMap ∨ t.pixelValue = 0
    · rw [if_pos hguard]
    · rw [if_neg hguard]
      have hpx : t.pixelValue ≠ 0 := fun h => hguard (Or.inr h)
      show (if (0 : Nat) = t.pixelValue then some newT else m 0) = m 0
      rw [if_neg fun h0 => hpx h0.symm]

/-- Witness for C9: concrete stored data that even contains a key-0 entry
(ignored by the import), an empty in-memory map for the load branch, and a
terrain with pixel value 0 for the removal no-op branch. -/
theorem c9_key0_always_null_terrain_witness :
    importFromJSONSceneMap [(0, 5), (3, 9)] 0 = some nullTerrain ∧
    (emptySceneMap 0 = none ∨ emptySceneMap 0 = some nullTerrain) ∧
    loadSceneDataSceneMap none emptySceneMap 0 = some nullTerrain ∧
    removeTerrainFromSceneMap true ⟨4, 0, false⟩ emptySceneMap = emptySceneMap := by
  have h := c9_key0_always_null_terrain [(0, 5), (3, 9)] none emptySceneMap true
    ⟨4, 0, false⟩ ⟨6, 0, false⟩
  exact ⟨h.1, Or.inl rfl, h.2.1 (Or.inl rfl), (h.2.2.1 rfl).1⟩

/-! ## Painting state: addTerrainShapeToCanvas and fill (C10, C5) -/

/-- The parts of the `TerrainLayer` instance state read and written by
`addTerrainShapeToCanvas` and `fill`: the per-layer shape queues (index =
layer), the key-indexed `#temporaryGraphics` map, the two pixel-cache dirty
bits, and the `_requiresSave` flag. -/
structure LayerState where
  shapeQueues : List (List QEntry)
  temporaryGraphics : List (Nat × QEntry)
  dirty : DirtyBits
  requiresSave : Bool
  deriving DecidableEq, Repr

/-- JS `Map.prototype.set` on the `#temporaryGraphics` association list:
replace the entry under the key if present, otherwise append it. -/
def mapSetAssoc (m : List (Nat × QEntry)) (k : Nat) (v : QEntry) :
    List (Nat × QEntry) :=
  if m.any (fun p => p.1 = k) then
    m.map (fun p => if p.1 = k then (k, v) else p)
  else m ++ [(k, v)]

/-- JS `Map.prototype.get` on the `#temporaryGraphics` association list. -/
def mapGetAssoc (m : List (Nat × QEntry)) (k : Nat) : Option QEntry :=
  (m.find? (fun p => p.1 = k)).map Prod.snd

/-- `TerrainLayer.addTerrainShapeToCanvas(shape, terrain, {temporary})`
(TerrainLayer.js:1200-1226).  The shape receives the pixel value of the terrain
and the current toolbar layer; `_removeTerrainShape` on a replaced
temporary entry only detaches its PIXI graphics (the map entry itself is
replaced by the `set` below); `this.renderTerrain(shape.layer)` ends in
`_clearPixelCacheArray(shape.layer)`; then the shape is either stored in the
temporary map or enqueued, and `this._requiresSave = !temporary`
unconditionally. -/
def addTerrainShapeToCanvas (currentLayer pixelValue originKey : Nat)
    (temporary : Bool) (st : LayerState) : LayerState × QEntry :=
  let shape : QEntry := ⟨currentLayer, pixelValue, originKey⟩
  let d := clearPixelCacheArray (Int.ofNat shape.layer) st.dirty
  let st1 : LayerState := { st with dirty := d }
  let st2 : LayerState :=
    if temporary then
      { st1 with temporaryGraphics :=
          mapSetAssoc st1.temporaryGraphics shape.originKey shape }
    else
      let newQueue := st1.shapeQueues.getD shape.layer [] ++ [shape]
      { st1 with shapeQueues := st1.shapeQueues.set shape.layer newQueue }
  ({ st2 with requiresSave := !temporary }, shape)

/-- `TerrainLayer.fill(origin, terrain)` (TerrainLayer.js:1301-1344).  The
boundary resolver `SCENE_GRAPH.encompassingPolygonWithHoles(origin)` and the
shape simplification `TerrainShapeHoled.simplify()` live outside src/
(`WallTracer.js`, `TerrainShapeHoled.js`); the resolver result is the
argument `polys` and the simplification is the parameter `simplify`, here
giving the origin keys of the produced shapes.  With no enclosing boundary
(`if ( !polys.length )`) the method warns and returns `undefined` (`none`)
without touching any state; otherwise every simplified shape is added
permanently via `addTerrainShapeToCanvas`. -/
def fill {Poly : Type} (currentLayer pixelValue : Nat) (polys : List Poly)
    (simplify : List Poly → List Nat) (st : LayerState) :
    LayerState × Option (List QEntry) :=
  if polys.length = 0 then (st, none)
  else
    let shapes := simplify polys
    let r := shapes.foldl
      (fun (acc : LayerState × List QEntry) ok =>
        let r2 := addTerrainShapeToCanvas currentLayer pixelValue ok false acc.1
        (r2.1, acc.2 ++ [r2.2]))
      (st, [])
    (r.1, some r.2)

/-- `Map.set` then `Map.get` at the same key returns the new value. -/
theorem mapGetAssoc_mapSetAssoc (m : List (Nat × QEntry)) (k : Nat)
    (v : QEntry) : mapGetAssoc (mapSetAssoc m k v) k = some v := by
  unfold mapSetAssoc
  by_cases h : m.any (fun p => p.1 = k) = true
  · rw [if_pos h]
    induction m with
    | nil => simp at h
    | cons p rest ih =>
      by_cases hp : p.1 = k
      · simp [mapGetAssoc, List.find?, hp]
      · have hrest : rest.any (fun p => p.1 = k) = true := by
          simp only [List.any_cons, Bool.or_eq_true, decide_eq_true_eq] at h
          rcases h with h | h
          · exact absurd h hp
          · simpa using h
        have := ih hrest
        simpa [mapGetAssoc, List.find?, hp] using this
  · rw [if_neg h]
    have hnone : m.find? (fun p => decide (p.1 = k)) = none := by
      rw [List.find?_eq_none]
      intro p hp
      simp only [List.any_eq_true, decide_eq_true_eq] at h
      simp only [decide_eq_true_eq]
      exact fun hk => h ⟨p, hp, hk⟩
    simp [mapGetAssoc, List.find?_append, hnone]

/-- **C10**: `addTerrainShapeToCanvas` unconditionally sets `_requiresSave`
to the negation of `temporary`: with `temporary = true` the shape is never
enqueued (every shape queue is unchanged; the shape is held in the
temporary-graphics map under its origin key) yet `_requiresSave` is reset to
`false` even if it was `true` from earlier unsaved permanent changes; with
`temporary = false` the shape is appended to the queue of the current layer, the
temporary map is unchanged, and `_requiresSave` becomes `true`. -/
theorem c10_addTerrainShape_requiresSave (currentLayer pixelValue originKey : Nat)
    (temporary : Bool) (st : LayerState) :
    ((addTerrainShapeToCanvas currentLayer pixelValue originKey temporary st).1.requiresSave
      = !temporary) ∧
    (temporary = true →
      (addTerrainShapeToCanvas currentLayer pixelValue originKey temporary st).1.shapeQueues
        = st.shapeQueues ∧
      mapGetAssoc
        (addTerrainShapeToCanvas currentLayer pixelValue originKey temporary st).1.temporaryGraphics
        originKey = some ⟨currentLayer, pixelValue, originKey⟩) ∧
    (temporary = false →
      (addTerrainShapeToCanvas currentLayer pixelValue originKey temporary st).1.temporaryGraphics
        = st.temporaryGraphics ∧
      (currentLayer < st.shapeQueues.length →
        (addTerrainShapeToCanvas currentLayer pixelValue originKey temporary st).1.shapeQueues.getD
          currentLayer []
          = st.shapeQueues.getD currentLayer []
              ++ [⟨currentLayer, pixelValue, originKey⟩])) := by
  refine ⟨?_, ?_, ?_⟩
  · cases temporary <;> rfl
  · intro ht
    subst ht
    exact ⟨rfl, mapGetAssoc_mapSetAssoc st.temporaryGraphics originKey
      ⟨currentLayer, pixelValue, originKey⟩⟩
  · intro ht
    subst ht
    refine ⟨rfl, fun hlen => ?_⟩
    show (st.shapeQueues.set currentLayer
        (st.shapeQueues.getD currentLayer [] ++ [⟨currentLayer, pixelValue, originKey⟩])).getD
        currentLayer [] = _
    rw [List.getD_eq_getElem?_getD, List.getElem?_set_self (by simpa using hlen)]
    rfl

/-- Witness for C10: a pending-save state (`requiresSave = true`) and a
temporary add, which resets the flag to `false` and leaves the single shape
queue untouched. -/
theorem c10_addTerrainShape_requiresSave_witness :
    (addTerrainShapeToCanvas 0 7 42 true
        ⟨[[⟨0, 3, 1⟩]], [], (false, false), true⟩).1.requiresSave = !true ∧
    (addTerrainShapeToCanvas 0 7 42 true
        ⟨[[⟨0, 3, 1⟩]], [], (false, false), true⟩).1.shapeQueues = [[⟨0, 3, 1⟩]] :=
  ⟨(c10_addTerrainShape_requiresSave 0 7 42 true
      ⟨[[⟨0, 3, 1⟩]], [], (false, false), true⟩).1,
   ((c10_addTerrainShape_requiresSave 0 7 42 true
      ⟨[[⟨0, 3, 1⟩]], [], (false, false), true⟩).2.1 rfl).1⟩

/-- **C5**: when the boundary resolver reports no enclosing boundary
(`encompassingPolygonWithHoles` returns no polygons), `fill` produces no
shape handle and leaves every shape queue, the temporary-graphics map, both
pixel-cache dirty bits, and the requires-save flag exactly as they were:
nothing is enqueued and no render occurs. -/
theorem c5_fill_no_boundary_is_noop {Poly : Type} (currentLayer pixelValue : Nat)
    (simplify : List Poly → List Nat) (st : LayerState) (polys : List Poly)
    (h : polys = []) :
    fill currentLayer pixelValue polys simplify st = (st, none) ∧
    (fill currentLayer pixelValue polys simplify st).1.shapeQueues = st.shapeQueues ∧
    (fill currentLayer pixelValue polys simplify st).1.temporaryGraphics
      = st.temporaryGraphics ∧
    (fill currentLayer pixelValue polys simplify st).1.dirty = st.dirty ∧
    (fill currentLayer pixelValue polys simplify st).1.requiresSave = st.requiresSave ∧
    (fill currentLayer pixelValue polys simplify st).2 = none := by
  subst h
  exact ⟨rfl, rfl, rfl, rfl, rfl, rfl⟩

/-- Witness for C5 with an empty resolver result on a concrete state. -/
theorem c5_fill_no_boundary_is_noop_witness :
    fill 2 9 ([] : List Nat) (fun _ => [1, 2])
        ⟨[[⟨0, 3, 1⟩]], [], (true, false), true⟩
      = (⟨[[⟨0, 3, 1⟩]], [], (true, false), true⟩, none) :=
  (c5_fill_no_boundary_is_noop 2 9 (fun _ => [1, 2])
    ⟨[[⟨0, 3, 1⟩]], [], (true, false), true⟩ [] rfl).1

/-! ## Terrain levels and terrain sets at a point (C6) -/

/-- `TerrainLayer._layersToTerrainLevels(terrainLayers)`
(TerrainLayer.js:370-380): walk the per-layer pixel values in layer order,
skip zero pixels (`if ( !px ) continue;`), and pair the scene-map terrain for
each non-zero pixel with its layer index (`new TerrainLevel(terrain, i)` is
the pair).  Terrains are identified by the value the scene map yields
(`terrainForPixel(px) = sceneMap.get(px)`), modelled as `sceneMap : Nat → Nat`
from pixel value to terrain identity, with identity 0 denoting the null
terrain. -/
def layersToTerrainLevels (sceneMap : Nat → Nat) (terrainLayers : List Nat) :
    List (Nat × Nat) :=
  (List.range terrainLayers.length).filterMap fun i =>
    if terrainLayers.getD i 0 = 0 then none
    else some (sceneMap (terrainLayers.getD i 0), i)

/-- JS `new Set(arr)`: insertion-ordered deduplication. -/
def jsSetOfList (l : List Nat) : List Nat :=
  l.foldl (fun acc a => if a ∈ acc then acc else acc ++ [a]) []

/-- `TerrainLayer.terrainsAt(pt)` (TerrainLayer.js:274-279):
`new Set(this.terrainLevelsAt(pt).map(t => t.terrain))`, as a function of the
decoded per-layer pixel vector at the point. -/
def terrainsAt (sceneMap : Nat → Nat) (terrainLayers : List Nat) : List Nat :=
  jsSetOfList ((layersToTerrainLevels sceneMap terrainLayers).map Prod.fst)

/-- The accumulator-generalized nodup property of the JS `Set` fold. -/
theorem jsSet_foldl_nodup (l : List Nat) :
    ∀ acc : List Nat, acc.Nodup →
      (l.foldl (fun acc a => if a ∈ acc then acc else acc ++ [a]) acc).Nodup := by
  induction l with
  | nil => intro acc h; simpa using h
  | cons a l ih =>
    intro acc h
    simp only [List.foldl_cons]
    by_cases ha : a ∈ acc
    · rw [if_pos ha]
      exact ih acc h
    · rw [if_neg ha]
      refine ih _ ?_
      rw [← List.concat_eq_append]
      exact List.Nodup.concat ha h

/-- The accumulator-generalized membership property of the JS `Set` fold. -/
theorem jsSet_foldl_mem (l : List Nat) :
    ∀ (acc : List Nat) (x : Nat),
      (x ∈ l.foldl (fun acc a => if a ∈ acc then acc else acc ++ [a]) acc
        ↔ x ∈ acc ∨ x ∈ l) := by
  induction l with
  | nil => intro acc x; simp
  | cons a l ih =>
    intro acc x
    simp only [List.foldl_cons]
    by_cases ha : a ∈ acc
    · rw [if_pos ha, ih]
      constructor
      · rintro (h | h)
        · exact Or.inl h
        · exact Or.inr (List.mem_cons_of_mem a h)
      · rintro (h | h)
        · exact Or.inl h
        · rcases List.mem_cons.mp h with rfl | h
          · exact Or.inl ha
          · exact Or.inr h
    · rw [if_neg ha, ih]
      simp only [List.mem_append, List.mem_singleton, List.mem_cons]
      tauto

/-- Membership characterization of the terrain-level list. -/
theorem mem_layersToTerrainLevels (m : Nat → Nat) (ls : List Nat) (t i : Nat) :
    (t, i) ∈ layersToTerrainLevels m ls ↔
      i < ls.length ∧ ls.getD i 0 ≠ 0 ∧ t = m (ls.getD i 0) := by
  unfold layersToTerrainLevels
  simp only [List.mem_filterMap, List.mem_range]
  constructor
  · rintro ⟨j, hj, hf⟩
    by_cases hz : ls.getD j 0 = 0
    · rw [if_pos hz] at hf
      exact absurd hf (by simp)
    · rw [if_neg hz] at hf
      simp only [Option.some.injEq, Prod.mk.injEq] at hf
      obtain ⟨ht, hi⟩ := hf
      subst hi
      exact ⟨hj, hz, ht.symm⟩
  · rintro ⟨hi, hz, ht⟩
    refine ⟨i, hi, ?_⟩
    rw [if_neg hz, ht]

/-- The terrain-level list is strictly increasing in layer index (the source
loop pushes entries in increasing `i`). -/
theorem layersToTerrainLevels_layer_sorted (m : Nat → Nat) (ls : List Nat) :
    (layersToTerrainLevels m ls).Pairwise (fun a b => a.2 < b.2) := by
  unfold layersToTerrainLevels
  refine List.Pairwise.filterMap _ ?_ (List.pairwise_lt_range ls.length)
  intro i j hij b hb c hc
  have hbi : b.2 = i := by
    by_cases hz : ls.getD i 0 = 0
    · rw [if_pos hz] at hb
      exact absurd hb (by simp)
    · rw [if_neg hz] at hb
      have hbx : (m (ls.getD i 0), i) = b := by simpa using hb
      rw [← hbx]
  have hcj : c.2 = j := by
    by_cases hz : ls.getD j 0 = 0
    · rw [if_pos hz] at hc
      exact absurd hc (by simp)
    · rw [if_neg hz] at hc
      have hcx : (m (ls.getD j 0), j) = c := by simpa using hc
      rw [← hcx]
  rw [hbi, hcj]
  exact hij

/-- **C6**: `terrainLevelsAt` reports exactly one entry per layer whose
decoded pixel value is non-zero, in increasing layer order, each entry
pairing the scene-map terrain for that pixel value with its layer index; and
`terrainsAt` is the deduplicated set of the terrains of those entries, which under
the scene-map invariant (non-zero pixel values map to non-null terrains)
contains no null terrain.  Two layers holding the same terrain give two
entries in the level list but a single element of the set (`Nodup` plus the
membership equivalence). -/
theorem c6_terrainLevels_and_terrains (m : Nat → Nat) (ls : List Nat) :
    (layersToTerrainLevels m ls).Pairwise (fun a b => a.2 < b.2) ∧
    (∀ t i : Nat, (t, i) ∈ layersToTerrainLevels m ls ↔
      i < ls.length ∧ ls.getD i 0 ≠ 0 ∧ t = m (ls.getD i 0)) ∧
    (terrainsAt m ls).Nodup ∧
    (∀ t : Nat, t ∈ terrainsAt m ls ↔
      ∃ e ∈ layersToTerrainLevels m ls, e.1 = t) ∧
    ((∀ k : Nat, k ≠ 0 → m k ≠ 0) → 0 ∉ terrainsAt m ls) := by
  have hmem : ∀ t : Nat, t ∈ terrainsAt m ls ↔
      ∃ e ∈ layersToTerrainLevels m ls, e.1 = t := by
    intro t
    unfold terrainsAt jsSetOfList
    rw [jsSet_foldl_mem]
    simp only [List.not_mem_nil, false_or, List.mem_map]
  refine ⟨layersToTerrainLevels_layer_sorted m ls,
    fun t i => mem_layersToTerrainLevels m ls t i,
    jsSet_foldl_nodup _ [] List.nodup_nil, hmem, ?_⟩
  intro hm h0
  obtain ⟨e, he, he0⟩ := (hmem 0).mp h0
  obtain ⟨hi, hz, ht⟩ :=
    (mem_layersToTerrainLevels m ls e.1 e.2).mp (by simpa using he)
  apply hm _ hz
  rw [← ht]
  exact he0

/-- Witness for the non-null conclusion of C6, with the identity scene map (which
sends non-zero keys to non-zero terrain identities) and a concrete layer
vector holding terrain keys on layers 1 and 3. -/
theorem c6_terrainLevels_and_terrains_witness :
    0 ∉ terrainsAt (fun k => k) [0, 5, 0, 7] :=
  (c6_terrainLevels_and_terrains (fun k => k) [0, 5, 0, 7]).2.2.2.2
    (fun _ hk => hk)
